import Mathlib

/-!
Shallow embedding of the git helper toolkit of this repository
(`master/buildbot/util/git.py`).  The module itself is not present in the
source tree; only its unit tests (`master/buildbot/test/unit/util/test_git.py`)
are.  Every definition below is therefore modelled from the specification and
cross-checked against the expectations recorded in that test file.
-/

/-- Modelled from the spec: the safe character set of the ShellArgEscaper —
letters, digits, underscore and dash (the Python regex character class
of letters, digits, underscore, dash). -/
def isSafeChar (c : Char) : Bool :=
  c.isAlpha || c.isDigit || c == '_' || c == '-'

/-- Modelled from the spec: `escapeShellArgIfNeeded` of the missing
`buildbot/util/git.py`.  An argument that is empty or has any character
outside the safe set is wrapped verbatim in double quotes; otherwise it is
returned unchanged. -/
def escapeShellArgIfNeeded (arg : String) : String :=
  if arg.data ≠ [] ∧ arg.data.all isSafeChar then arg
  else ("\"") ++ arg ++ ("\"")

/-- Modelled from the spec: `ensureSshKeyNewline` of the missing
`buildbot/util/git.py`.  A key already ending in a newline is returned
unchanged; otherwise exactly one newline is appended. -/
def ensureSshKeyNewline (key : String) : String :=
  if key.data.getLast? = some ('\n') then key else key ++ ("\n")

/-- Modelled from the spec: `check_ssh_config` of the missing
`buildbot/util/git.py`.  Validates the SSH configuration options of a step,
first violation wins; the error message carries the step name.  The message
texts are the ones the repository's unit test asserts. -/
def check_ssh_config (logname : String) (privateKey hostKey knownHosts : Option String) :
    Except String Unit :=
  if hostKey.isSome && privateKey.isNone then
    .error (logname ++ (": sshPrivateKey must be provided in order use sshHostKey"))
  else if knownHosts.isSome && privateKey.isNone then
    .error (logname ++ (": sshPrivateKey must be provided in order use sshKnownHosts"))
  else if hostKey.isSome && knownHosts.isSome then
    .error (logname ++ (": only one of sshKnownHosts and sshHostKey can be provided"))
  else .ok ()

/-- A parsed git version triple. -/
structure GitVersion where
  major : Nat
  minor : Nat
  patch : Nat
deriving DecidableEq

/-- Version-order comparison: `v` is at or above the threshold `t`. -/
def verGe (v t : GitVersion) : Bool :=
  decide (t.major < v.major ∨ (t.major = v.major ∧
    (t.minor < v.minor ∨ (t.minor = v.minor ∧ t.patch ≤ v.patch))))

/-- The capability flags of the GitMixin, as set up by `setupGit` and
`parseGitFeatures`. -/
structure GitCapabilities where
  gitInstalled : Bool
  supportsBranch : Bool
  supportsSubmoduleForce : Bool
  supportsSubmoduleCheckout : Bool
  supportsSshPrivateKeyAsEnvOption : Bool
  supportsSshPrivateKeyAsConfigOption : Bool
  supports_lsremote_symref : Bool
  supports_credential_store : Bool
deriving DecidableEq

/-- The all-false flag record: git not detected. -/
def noGitCapabilities : GitCapabilities :=
  ⟨false, false, false, false, false, false, false, false⟩

/-- Modelled from the spec: the FeatureMatrix of the missing
`buildbot/util/git.py` — each flag is on exactly when the detected version is
at or above that flag's fixed minimum version (the historical git thresholds). -/
def featuresOfVersion (v : GitVersion) : GitCapabilities :=
  ⟨true,
   verGe v ⟨1, 6, 5⟩,
   verGe v ⟨1, 7, 6⟩,
   verGe v ⟨1, 7, 8⟩,
   verGe v ⟨2, 3, 0⟩,
   verGe v ⟨2, 10, 0⟩,
   verGe v ⟨2, 8, 0⟩,
   verGe v ⟨1, 7, 9⟩⟩

/-- Split a character list on a separator character. -/
def splitOnChar (sep : Char) : List Char → List (List Char)
  | [] => [[]]
  | c :: t =>
    if c == sep then [] :: splitOnChar sep t
    else
      match splitOnChar sep t with
      | [] => [[c]]
      | h :: r => (c :: h) :: r

/-- Decimal value of a digit list. -/
def digitsToNat (l : List Char) : Nat :=
  l.foldl (fun a c => a * 10 + (c.toNat - ('0').toNat)) 0

/-- The numeric value of the leading digit run of a component, if any. -/
def numPrefix (l : List Char) : Option Nat :=
  let d := l.takeWhile Char.isDigit
  if d.isEmpty then none else some (digitsToNat d)

/-- Modelled from the spec: the VersionParser of the missing
`buildbot/util/git.py`.  The banner must start with the product name
(`git version `) followed by a dotted numeric token; only the first three
dot-separated numeric components are taken (the third may carry a trailing
non-numeric suffix).  Any failure yields `none` (git not installed). -/
def parseGitVersion (banner : String) : Option GitVersion :=
  let pre := ("git version ").data
  if pre.isPrefixOf banner.data then
    match splitOnChar ('.') (banner.data.drop pre.length) with
    | a :: b :: c :: _ =>
      match numPrefix a, numPrefix b, numPrefix c with
      | some x, some y, some z => some ⟨x, y, z⟩
      | _, _, _ => none
    | _ => none
  else none

/-- Modelled from the spec: `parseGitFeatures` of the missing
`buildbot/util/git.py` — version banner in, capability flags out; an
unparseable banner leaves every flag (including `gitInstalled`) off. -/
def parseGitFeatures (banner : String) : GitCapabilities :=
  match parseGitVersion banner with
  | none => noGitCapabilities
  | some v => featuresOfVersion v

/-- Substring search on character lists. -/
def listContains : List Char → List Char → Bool
  | [], pat => pat.isEmpty
  | c :: t, pat => pat.isPrefixOf (c :: t) || listContains t pat

/-- Substring search on strings. -/
def containsSubstr (s pat : String) : Bool :=
  listContains s.data pat.data

/-- A filesystem path: POSIX absolute (leading slash) or a Windows
drive-letter pattern (letter, colon, backslash). -/
def isFsPath (s : String) : Bool :=
  match s.data with
  | ('/') :: _ => true
  | a :: (':') :: ('\\') :: _ => a.isAlpha
  | _ => false

/-- Split a character list at its first colon. -/
def splitFirstColon : List Char → Option (List Char × List Char)
  | [] => none
  | c :: t =>
    if c == ':' then some ([], t)
    else
      match splitFirstColon t with
      | some (h, p) => some (c :: h, p)
      | none => none

/-- Modelled from the spec: the UrlNormalizer `scp_style_to_url_syntax` of the
missing `buildbot/util/git.py`.  A location with an explicit scheme separator
is returned unchanged; a filesystem path is returned unchanged; otherwise an
SCP-style `host:path` location (host free of slashes) is rewritten to
`ssh://host:port/path`; anything else is returned unchanged. -/
def scp_style_to_url_syntax (url : String) (port : Nat) : String :=
  if containsSubstr url ("://") then url
  else if isFsPath url then url
  else
    match splitFirstColon url.data with
    | some (host, path) =>
      if host.contains ('/') then url
      else
        String.mk ((("ssh://").data) ++
          (host ++ (((':') :: (Nat.repr port).data) ++ (('/') :: path))))
    | none => url

/-- The two fatal failures of the SSH command adapter. -/
inductive AdapterError where
  | missingWrapper
  | unsupportedCapability
deriving DecidableEq

/-- Modelled from the spec: the wrapper invocation string — the wrapper's
executable path concatenated with the escaped key path and, when present, the
escaped known-hosts path. -/
def buildWrapperInvocation (wrapper keyPath : String) (knownHostsPath : Option String) : String :=
  wrapper ++ (" ") ++ escapeShellArgIfNeeded keyPath ++
    (match knownHostsPath with
     | some p => (" ") ++ escapeShellArgIfNeeded p
     | none => (""))

/-- Modelled from the spec: `adjustCommandParamsForSshPrivateKey` of the
missing `buildbot/util/git.py`.  Strategy selected by capability flags: the
config-option strategy appends a `-c core.sshCommand=` argument pair, the
environment strategy sets the conventional SSH-command environment variable;
with neither capability the adapter fails with `unsupportedCapability`, and in
a supported strategy a missing wrapper reference fails with `missingWrapper`. -/
def adjustCommandParamsForSshPrivateKey (caps : GitCapabilities) (wrapper : Option String)
    (command : List String) (env : List (String × String)) (keyPath : String)
    (knownHostsPath : Option String) :
    Except AdapterError (List String × List (String × String)) :=
  if caps.supportsSshPrivateKeyAsConfigOption then
    match wrapper with
    | none => .error .missingWrapper
    | some w =>
      .ok (command ++ [("-c"), ("core.sshCommand=") ++ buildWrapperInvocation w keyPath knownHostsPath],
           env)
  else if caps.supportsSshPrivateKeyAsEnvOption then
    match wrapper with
    | none => .error .missingWrapper
    | some w =>
      .ok (command, env ++ [(("GIT_SSH_COMMAND"), buildWrapperInvocation w keyPath knownHostsPath)])
  else .error .unsupportedCapability

theorem listContains_of_isPrefixOf {l pat : List Char} (h : pat.isPrefixOf l = true) :
    listContains l pat = true := by
  cases l with
  | nil =>
    cases pat with
    | nil => rfl
    | cons c t => simp [List.isPrefixOf] at h
  | cons c t => simp [listContains, h]

theorem isPrefixOf_append_self (l r : List Char) : l.isPrefixOf (l ++ r) = true := by
  induction l with
  | nil => simp [List.isPrefixOf]
  | cons c t ih => simp [List.isPrefixOf, ih]

theorem containsSubstr_append_left (s t : String) : containsSubstr (s ++ t) s = true := by
  unfold containsSubstr
  rw [String.data_append]
  exact listContains_of_isPrefixOf (isPrefixOf_append_self _ _)

theorem listContains_scheme (l : List Char) :
    listContains (('s') :: ('s') :: ('h') :: (':') :: ('/') :: ('/') :: l)
      ([':', '/', '/']) = true := by
  simp [listContains, List.isPrefixOf]

theorem containsSubstr_ssh (rest : List Char) :
    containsSubstr (String.mk ((("ssh://").data) ++ rest)) ("://") = true := by
  unfold containsSubstr
  show listContains (('s') :: ('s') :: ('h') :: (':') :: ('/') :: ('/') :: rest)
    ([':', '/', '/']) = true
  exact listContains_scheme rest

theorem scp_fixed_of_contains {u : String} (p : Nat) (h : containsSubstr u ("://") = true) :
    scp_style_to_url_syntax u p = u := by
  unfold scp_style_to_url_syntax
  rw [if_pos h]

theorem check_error_mentions (name : String) (pk hk kh : Option String) :
    ∀ m, check_ssh_config name pk hk kh = .error m → containsSubstr m name = true := by
  intro m hm
  unfold check_ssh_config at hm
  split at hm
  · injection hm with h
    subst h
    exact containsSubstr_append_left _ _
  · split at hm
    · injection hm with h
      subst h
      exact containsSubstr_append_left _ _
    · split at hm
      · injection hm with h
        subst h
        exact containsSubstr_append_left _ _
      · cases hm

theorem getLast_append_single (l : List Char) (a : Char) :
    (l ++ [a]).getLast? = some a := by
  induction l with
  | nil => rfl
  | cons c t ih => simp [List.cons_append, List.getLast?_cons, ih]

/-- C5: the banner `git version 2.10.0` yields installed and all eight flags
true; the empty banner yields installed false and all flags false; the banner
`git` (no version token) yields installed false. -/
theorem C5_banner_scenarios :
    parseGitFeatures ("git version 2.10.0") = ⟨true, true, true, true, true, true, true, true⟩
    ∧ parseGitFeatures ("") = ⟨false, false, false, false, false, false, false, false⟩
    ∧ (parseGitFeatures ("git")).gitInstalled = false := by
  decide

/-- C10: the banner `git version 0.0.0` parses, so `gitInstalled` is true,
while every one of the capability flags stays false. -/
theorem C10_zero_version_installed_no_flags :
    (parseGitFeatures ("git version 0.0.0")).gitInstalled = true
    ∧ (parseGitFeatures ("git version 0.0.0")).supportsBranch = false
    ∧ (parseGitFeatures ("git version 0.0.0")).supportsSubmoduleForce = false
    ∧ (parseGitFeatures ("git version 0.0.0")).supportsSubmoduleCheckout = false
    ∧ (parseGitFeatures ("git version 0.0.0")).supportsSshPrivateKeyAsEnvOption = false
    ∧ (parseGitFeatures ("git version 0.0.0")).supportsSshPrivateKeyAsConfigOption = false
    ∧ (parseGitFeatures ("git version 0.0.0")).supports_lsremote_symref = false
    ∧ (parseGitFeatures ("git version 0.0.0")).supports_credential_store = false := by
  decide

/-- C4: whenever the banner does not yield a detected installation, every
capability flag is false as well. -/
theorem C4_uninstalled_all_flags_false (s : String)
    (h : (parseGitFeatures s).gitInstalled = false) :
    (parseGitFeatures s).supportsBranch = false
    ∧ (parseGitFeatures s).supportsSubmoduleForce = false
    ∧ (parseGitFeatures s).supportsSubmoduleCheckout = false
    ∧ (parseGitFeatures s).supportsSshPrivateKeyAsEnvOption = false
    ∧ (parseGitFeatures s).supportsSshPrivateKeyAsConfigOption = false
    ∧ (parseGitFeatures s).supports_lsremote_symref = false
    ∧ (parseGitFeatures s).supports_credential_store = false := by
  unfold parseGitFeatures at h ⊢
  cases hv : parseGitVersion s with
  | none => simp [noGitCapabilities]
  | some v =>
    rw [hv] at h
    simp [featuresOfVersion] at h

/-- Witness for C4 at the empty banner. -/
theorem C4_witness :
    (parseGitFeatures ("")).supportsBranch = false
    ∧ (parseGitFeatures ("")).supportsSubmoduleForce = false
    ∧ (parseGitFeatures ("")).supportsSubmoduleCheckout = false
    ∧ (parseGitFeatures ("")).supportsSshPrivateKeyAsEnvOption = false
    ∧ (parseGitFeatures ("")).supportsSshPrivateKeyAsConfigOption = false
    ∧ (parseGitFeatures ("")).supports_lsremote_symref = false
    ∧ (parseGitFeatures ("")).supports_credential_store = false :=
  C4_uninstalled_all_flags_false ("") (by decide)

/-- C3: the feature matrix is monotone — with `v1` componentwise at most
`v2`, every capability flag computed at `v1` holds at `v2` as well. -/
theorem C3_feature_flags_monotone (v1 v2 : GitVersion)
    (h1 : v1.major ≤ v2.major) (h2 : v1.minor ≤ v2.minor) (h3 : v1.patch ≤ v2.patch) :
    ((featuresOfVersion v1).gitInstalled = true → (featuresOfVersion v2).gitInstalled = true)
    ∧ ((featuresOfVersion v1).supportsBranch = true →
        (featuresOfVersion v2).supportsBranch = true)
    ∧ ((featuresOfVersion v1).supportsSubmoduleForce = true →
        (featuresOfVersion v2).supportsSubmoduleForce = true)
    ∧ ((featuresOfVersion v1).supportsSubmoduleCheckout = true →
        (featuresOfVersion v2).supportsSubmoduleCheckout = true)
    ∧ ((featuresOfVersion v1).supportsSshPrivateKeyAsEnvOption = true →
        (featuresOfVersion v2).supportsSshPrivateKeyAsEnvOption = true)
    ∧ ((featuresOfVersion v1).supportsSshPrivateKeyAsConfigOption = true →
        (featuresOfVersion v2).supportsSshPrivateKeyAsConfigOption = true)
    ∧ ((featuresOfVersion v1).supports_lsremote_symref = true →
        (featuresOfVersion v2).supports_lsremote_symref = true)
    ∧ ((featuresOfVersion v1).supports_credential_store = true →
        (featuresOfVersion v2).supports_credential_store = true) := by
  have mono : ∀ t : GitVersion, verGe v1 t = true → verGe v2 t = true := by
    intro t
    simp only [verGe, decide_eq_true_eq]
    omega
  exact ⟨fun _ => rfl, mono ⟨1, 6, 5⟩, mono ⟨1, 7, 6⟩, mono ⟨1, 7, 8⟩, mono ⟨2, 3, 0⟩,
    mono ⟨2, 10, 0⟩, mono ⟨2, 8, 0⟩, mono ⟨1, 7, 9⟩⟩

/-- Witness for C3 on the concrete pair 1.6.5 and 2.7.5. -/
theorem C3_witness : (featuresOfVersion ⟨2, 7, 5⟩).supportsBranch = true :=
  (C3_feature_flags_monotone ⟨1, 6, 5⟩ ⟨2, 7, 5⟩ (by decide) (by decide) (by decide)).2.1
    (by decide)

/-- C1 counterexample: with only the host key set, the validator's message
reads `in order use sshHostKey`, and the claimed text
`in order to use sshHostKey` does not occur in it. -/
theorem C1_counterexample :
    check_ssh_config ("TestSetUpGit") none (some ("host")) none =
      .error (("TestSetUpGit") ++ (": sshPrivateKey must be provided in order use sshHostKey"))
    ∧ containsSubstr
        (("TestSetUpGit") ++ (": sshPrivateKey must be provided in order use sshHostKey"))
        ("sshPrivateKey must be provided in order to use sshHostKey") = false :=
  ⟨rfl, by decide⟩

/-- C1 (amended): `check_ssh_config` succeeds exactly when none of the three
violations holds; the first violation wins, producing in order the messages
`sshPrivateKey must be provided in order use sshHostKey`,
`sshPrivateKey must be provided in order use sshKnownHosts`, and
`only one of sshKnownHosts and sshHostKey can be provided`; every error
message contains the step name. -/
theorem C1_check_ssh_config_messages (name : String) (pk hk kh : Option String) :
    (check_ssh_config name pk hk kh = .ok () ↔
      ¬((hk.isSome = true ∧ pk = none) ∨ (kh.isSome = true ∧ pk = none) ∨
        (hk.isSome = true ∧ kh.isSome = true)))
    ∧ (hk.isSome = true → pk = none →
        check_ssh_config name pk hk kh =
          .error (name ++ (": sshPrivateKey must be provided in order use sshHostKey")))
    ∧ (hk = none → kh.isSome = true → pk = none →
        check_ssh_config name pk hk kh =
          .error (name ++ (": sshPrivateKey must be provided in order use sshKnownHosts")))
    ∧ (pk.isSome = true → hk.isSome = true → kh.isSome = true →
        check_ssh_config name pk hk kh =
          .error (name ++ (": only one of sshKnownHosts and sshHostKey can be provided")))
    ∧ (∀ m, check_ssh_config name pk hk kh = .error m → containsSubstr m name = true) := by
  refine ⟨?_, ?_, ?_, ?_, check_error_mentions name pk hk kh⟩ <;>
    cases pk <;> cases hk <;> cases kh <;> simp [check_ssh_config]

/-- Witness for C1 at a concrete violating configuration. -/
theorem C1_witness :
    check_ssh_config ("TestSetUpGit") (some ("key")) (some ("host")) (some ("hosts")) =
      .error (("TestSetUpGit") ++ (": only one of sshKnownHosts and sshHostKey can be provided")) :=
  (C1_check_ssh_config_messages ("TestSetUpGit") (some ("key")) (some ("host"))
    (some ("hosts"))).2.2.2.1 rfl rfl rfl

/-- C9: a key already ending in a newline is returned unchanged, any other
key gains exactly one newline, and the operation is idempotent. -/
theorem C9_ensure_newline (k : String) :
    (k.data.getLast? = some ('\n') → ensureSshKeyNewline k = k)
    ∧ (k.data.getLast? ≠ some ('\n') → ensureSshKeyNewline k = k ++ ("\n"))
    ∧ ensureSshKeyNewline (ensureSshKeyNewline k) = ensureSshKeyNewline k := by
  by_cases h : k.data.getLast? = some ('\n')
  · simp [ensureSshKeyNewline, h]
  · have h1 : ensureSshKeyNewline k = k ++ ("\n") := by
      simp [ensureSshKeyNewline, h]
    have h2 : (k ++ ("\n")).data.getLast? = some ('\n') := by
      rw [String.data_append]
      exact getLast_append_single k.data ('\n')
    refine ⟨fun hc => absurd hc h, fun _ => h1, ?_⟩
    rw [h1]
    simp [ensureSshKeyNewline, h2]

/-- Witness for C9 on a key with no trailing newline. -/
theorem C9_witness : ensureSshKeyNewline ("abc") = ("abc") ++ ("\n") :=
  (C9_ensure_newline ("abc")).2.1 (by decide)

/-- C7: URL normalization is idempotent for every location and port. -/
theorem C7_normalize_idempotent (x : String) (p : Nat) :
    scp_style_to_url_syntax ( scp_style_to_url_syntax x p) p =
      scp_style_to_url_syntax x p := by
  by_cases h1 : containsSubstr x ("://") = true
  · rw [scp_fixed_of_contains p h1]
    exact scp_fixed_of_contains p h1
  · by_cases h2 : isFsPath x = true
    · have hx : scp_style_to_url_syntax x p = x := by
        simp [ scp_style_to_url_syntax, h1, h2]
      rw [hx]
      exact hx
    · cases hsplit : splitFirstColon x.data with
      | none =>
        have hx : scp_style_to_url_syntax x p = x := by
          simp [ scp_style_to_url_syntax, h1, h2, hsplit]
        rw [hx]
        exact hx
      | some hp =>
        obtain ⟨host, path⟩ := hp
        by_cases h3 : host.contains ('/') = true
        · have hx : scp_style_to_url_syntax x p = x := by
            unfold scp_style_to_url_syntax
            rw [if_neg h1, if_neg h2]
            simp only [hsplit]
            rw [if_pos h3]
          rw [hx]
          exact hx
        · have hx : scp_style_to_url_syntax x p =
              String.mk ((("ssh://").data) ++
                (host ++ (((':') :: (Nat.repr p).data) ++ (('/') :: path)))) := by
            unfold scp_style_to_url_syntax
            rw [if_neg h1, if_neg h2]
            simp only [hsplit]
            rw [if_neg h3]
          rw [hx]
          exact scp_fixed_of_contains p (containsSubstr_ssh _)

/-- C6: the normalizer's rules apply in fixed precedence — explicit-scheme
locations and filesystem paths are returned unchanged before the SCP rewrite
is tried — and the four concrete scenarios evaluate as specified. -/
theorem C6_normalize_precedence :
    (∀ (url : String) (p : Nat), containsSubstr url ("://") = true →
      scp_style_to_url_syntax url p = url)
    ∧ (∀ (url : String) (p : Nat), isFsPath url = true →
      scp_style_to_url_syntax url p = url)
    ∧ scp_style_to_url_syntax ("host:path/to/git") 23 = ("ssh://host:23/path/to/git")
    ∧ scp_style_to_url_syntax ("ssh://path/to/git") 23 = ("ssh://path/to/git")
    ∧ scp_style_to_url_syntax ("/path/to/git") 23 = ("/path/to/git")
    ∧ scp_style_to_url_syntax ("C:\\path\\to\\git") 23 = ("C:\\path\\to\\git") := by
  refine ⟨fun url p h => scp_fixed_of_contains p h, fun url p h => ?_, by decide, by decide,
    by decide, by decide⟩
  unfold scp_style_to_url_syntax
  by_cases hc : containsSubstr url ("://") = true
  · rw [if_pos hc]
  · rw [if_neg hc, if_pos h]

/-- Witness for C6 on an explicit scheme and on a filesystem path. -/
theorem C6_witness :
    scp_style_to_url_syntax ("ssh://x") 1 = ("ssh://x")
    ∧ scp_style_to_url_syntax ("/a") 1 = ("/a") :=
  ⟨C6_normalize_precedence.1 ("ssh://x") 1 (by decide),
   C6_normalize_precedence.2.1 ("/a") 1 (by decide)⟩

/-- C8: an argument is wrapped verbatim in double quotes exactly when it is
empty or has a character outside the safe set, and is returned unchanged
otherwise; with the four concrete scenarios. -/
theorem C8_escape_characterized :
    (∀ arg : String,
      ( escapeShellArgIfNeeded arg = ("\"") ++ arg ++ ("\"") ↔
        (arg = ("") ∨ ∃ c, c ∈ arg.data ∧ isSafeChar c = false))
      ∧ ( escapeShellArgIfNeeded arg = arg ↔
        ¬(arg = ("") ∨ ∃ c, c ∈ arg.data ∧ isSafeChar c = false)))
    ∧ escapeShellArgIfNeeded ("") = ("\"\"")
    ∧ escapeShellArgIfNeeded ("a b") = ("\"a b\"")
    ∧ escapeShellArgIfNeeded ("-opt") = ("-opt")
    ∧ escapeShellArgIfNeeded ("--opt") = ("--opt") := by
  have hne : ∀ a : String, (("\"") ++ a ++ ("\"")) ≠ a := by
    intro a h
    have hd := congrArg String.data h
    rw [String.data_append, String.data_append] at hd
    have hq : (("\"") : String).data = [('"')] := rfl
    rw [hq] at hd
    have hl := congrArg List.length hd
    simp [List.length_append] at hl
    omega
  refine ⟨fun arg => ?_, by decide, by decide, by decide, by decide⟩
  have hchar : (arg = ("") ∨ ∃ c, c ∈ arg.data ∧ isSafeChar c = false) ↔
      ¬(arg.data ≠ [] ∧ arg.data.all isSafeChar = true) := by
    constructor
    · rintro (hE | ⟨c, hc, hf⟩) ⟨hne2, hall⟩
      · exact hne2 (by rw [hE])
      · rw [List.all_eq_true] at hall
        have := hall c hc
        rw [hf] at this
        exact Bool.false_ne_true this
    · intro hn
      by_cases hE : arg.data = []
      · left
        exact String.ext hE
      · right
        have hall : ¬(arg.data.all isSafeChar = true) := fun ha => hn ⟨hE, ha⟩
        rw [List.all_eq_true] at hall
        push_neg at hall
        obtain ⟨c, hc, hf⟩ := hall
        exact ⟨c, hc, by simpa [Bool.not_eq_true] using hf⟩
  by_cases h : arg.data ≠ [] ∧ arg.data.all isSafeChar = true
  · have he : escapeShellArgIfNeeded arg = arg := by
      unfold escapeShellArgIfNeeded
      rw [if_pos h]
    have hR : ¬(arg = ("") ∨ ∃ c, c ∈ arg.data ∧ isSafeChar c = false) :=
      fun hr => (hchar.mp hr) h
    refine ⟨?_, ?_⟩
    · rw [he]
      exact ⟨fun hq => (hne arg hq.symm).elim, fun hr => (hR hr).elim⟩
    · rw [he]
      exact iff_of_true rfl hR
  · have he : escapeShellArgIfNeeded arg = ("\"") ++ arg ++ ("\"") := by
      unfold escapeShellArgIfNeeded
      rw [if_neg h]
    have hR : arg = ("") ∨ ∃ c, c ∈ arg.data ∧ isSafeChar c = false := hchar.mpr h
    refine ⟨?_, ?_⟩
    · rw [he]
      exact iff_of_true rfl hR
    · rw [he]
      exact iff_of_false (hne arg) (fun hn => hn hR)

/-- C2: in a supported strategy a missing wrapper reference fails with
`missingWrapper`; with neither capability flag the adapter fails with the
distinct `unsupportedCapability`; a success never returns the
command/environment un-adapted. -/
theorem C2_adapter_failures (caps : GitCapabilities) (command : List String)
    (env : List (String × String)) (keyPath : String) (kh : Option String) :
    ((caps.supportsSshPrivateKeyAsConfigOption = true ∨
        caps.supportsSshPrivateKeyAsEnvOption = true) →
      adjustCommandParamsForSshPrivateKey caps none command env keyPath kh =
        .error .missingWrapper)
    ∧ (caps.supportsSshPrivateKeyAsConfigOption = false →
        caps.supportsSshPrivateKeyAsEnvOption = false →
      ∀ w, adjustCommandParamsForSshPrivateKey caps w command env keyPath kh =
        .error .unsupportedCapability)
    ∧ (AdapterError.missingWrapper ≠ AdapterError.unsupportedCapability)
    ∧ (∀ w r, adjustCommandParamsForSshPrivateKey caps w command env keyPath kh = .ok r →
        r ≠ (command, env)) := by
  refine ⟨?_, ?_, by decide, ?_⟩
  · intro hor
    unfold adjustCommandParamsForSshPrivateKey
    by_cases hc : caps.supportsSshPrivateKeyAsConfigOption = true
    · rw [if_pos hc]
    · rcases hor with hc2 | he
      · exact absurd hc2 hc
      · rw [if_neg hc, if_pos he]
  · intro hc he w
    simp [adjustCommandParamsForSshPrivateKey, hc, he]
  · intro w r hr heq
    subst heq
    unfold adjustCommandParamsForSshPrivateKey at hr
    by_cases hc : caps.supportsSshPrivateKeyAsConfigOption = true
    · rw [if_pos hc] at hr
      cases w with
      | none => simp at hr
      | some wv =>
        simp only [Except.ok.injEq, Prod.mk.injEq] at hr
        have hlen := congrArg List.length hr.1
        simp [List.length_append] at hlen
    · rw [if_neg hc] at hr
      by_cases he : caps.supportsSshPrivateKeyAsEnvOption = true
      · rw [if_pos he] at hr
        cases w with
        | none => simp at hr
        | some wv =>
          simp only [Except.ok.injEq, Prod.mk.injEq] at hr
          have hlen := congrArg List.length hr.2
          simp [List.length_append] at hlen
      · rw [if_neg he] at hr
        simp at hr

/-- Witness for C2: config-option capability on, wrapper absent. -/
theorem C2_witness :
    adjustCommandParamsForSshPrivateKey ⟨true, false, false, false, false, true, false, false⟩
      none [] [] ("path/to/key") none = .error .missingWrapper :=
  (C2_adapter_failures ⟨true, false, false, false, false, true, false, false⟩ [] []
    ("path/to/key") none).1 (Or.inl rfl)

/-- Witness for C7 on a concrete SCP-style location. -/
theorem C7_witness :
    scp_style_to_url_syntax ( scp_style_to_url_syntax ("host:path") 23) 23 =
      scp_style_to_url_syntax ("host:path") 23 :=
  C7_normalize_idempotent ("host:path") 23

/-- Witness for C8 on an argument holding a space. -/
theorem C8_witness :
    escapeShellArgIfNeeded ("a b") = ("\"") ++ ("a b") ++ ("\"") :=
  (C8_escape_characterized.1 ("a b")).1.mpr (Or.inr ⟨(' '), by decide, by decide⟩)
